import Mathlib

/-!
Shallow embedding of src/interface_demo.c, a minimal object/interface/vtable
runtime written in C99, together with proofs about its specified properties.

Modelling conventions:
* Pointers are natural-number addresses (`Addr`); the value 0 is NULL.
* The four statically allocated entities of the program sit at fixed, distinct,
  nonzero addresses: the printable interface descriptor, the static printable
  vtable of the number type, the number class descriptor, and the sole
  toString entry point (the function number_print).
* Machine sizes follow the LP64 model: every pointer is 8 bytes, so
  sizeof(struct impl) = 16 and sizeof(void *) = 8.  The expression
  sizeof(number_interfaces)/sizeof(void *) from the source is translated
  literally, divisor included.
* Memory is split by type into association lists keyed by address: payloads of
  number objects (int values) and printable vtables.  malloc hands out fresh
  consecutive addresses starting above the static ones.
* A C computation whose behaviour is undefined (out-of-bounds array read,
  dereference of an invalid pointer, failing assert, free of a pointer that is
  not a live heap block) is modelled as `none`; defined executions are `some`.
* Bytes written to file descriptor 1 are modelled as lists of naturals below
  256; the byte 10 is the newline character and 48 is the digit zero.
-/

namespace InterfaceDemo

/-- A machine address.  0 plays the role of the NULL pointer. -/
abbrev Addr := Nat

/-- Address of the static descriptor `printable_iface`. -/
def printable_iface_addr : Addr := 1

/-- Address of the static table `number_printable_vtable`. -/
def number_printable_vtable_addr : Addr := 2

/-- Address of the static descriptor `number_class`. -/
def number_class_addr : Addr := 3

/-- Address of the function `number_print`, used as a function pointer. -/
def number_print_fn : Addr := 4

/-- Value of `sizeof(void *)` in the LP64 model. -/
def sizeof_void_ptr : Nat := 8

/-- Value of `sizeof(struct impl)`: two pointer fields, no padding. -/
def sizeof_impl : Nat := 16

/-- C type `struct iface`: an interface descriptor records only the byte size of its
dispatch-table shape.  Identity of descriptors is by address, not by value. -/
structure iface where
  vtable_size : Nat
deriving DecidableEq

/-- C type `struct impl`: an implementation binding pairs a pointer to an interface
descriptor with a pointer to a dispatch table. -/
structure impl where
  type : Addr
  vtable : Addr
deriving DecidableEq

/-- C type `struct class` (renamed: `class` is reserved in Lean): instance payload
size, the interface count (an unsigned char in the source, hence at most 255),
and the contents of the array its `interfaces` pointer refers to.  The list
holds exactly the entries that exist in memory; reading an index beyond its
length is an out-of-bounds access. -/
structure class_desc where
  instance_size : Nat
  interface_count : Nat
  interfaces : List impl
deriving DecidableEq

/-- C type `struct object` (field `instance` renamed: `instance` is reserved in
Lean): a class-descriptor pointer plus an opaque instance pointer. -/
structure object where
  type : Addr
  instance_ : Addr
deriving DecidableEq

/-- The null binding sentinel `(impl) { .type = NULL, .vtable = NULL }`. -/
def null_impl : impl := { type := 0, vtable := 0 }

/-- C type `struct printable_vtable`: a single function pointer `toString`. -/
structure printable_vtable where
  toString : Addr
deriving DecidableEq

/-- Memory region holding number payloads: address of a live allocation
paired with the int stored there. -/
abbrev NumMem := List (Addr × Int)

/-- Memory region holding printable vtables: address paired with contents.
Contains both static tables and live heap-allocated ones. -/
abbrev VtMem := List (Addr × printable_vtable)

/-- Program memory state.  `next` is the next fresh address malloc returns;
`heap_vtables` records which vtable addresses are live heap blocks (eligible
for free), as opposed to static or stack storage. -/
structure Heap where
  next : Addr
  numbers : NumMem
  vtables : VtMem
  heap_vtables : List Addr
deriving DecidableEq

/-- Remove the first entry with the given key from an association list; the
model of returning one block to the allocator. -/
def remove_key {β : Type} : List (Addr × β) → Addr → List (Addr × β)
  | [], _ => []
  | p :: rest, a => if p.1 = a then rest else p :: remove_key rest a

/-- The loop of `has_iface`: for(i=0; i < count; ++i) over the binding array,
returning the first entry whose descriptor pointer equals the queried one,
else the null binding.  `fuel` is count - i, so the loop exits exactly when i
reaches count.  Reading an index that does not exist in the array is an
out-of-bounds access: undefined behaviour, modelled as `none`. -/
def scan_ifaces (arr : List impl) (interface : Addr) : Nat → Nat → Option impl
  | _, 0 => some null_impl
  | i, fuel + 1 =>
    match arr[i]? with
    | none => none
    | some e => if e.type = interface then some e
                else scan_ifaces arr interface (i + 1) fuel

/-- Class memory: maps a class-descriptor address to its contents. -/
abbrev ClassEnv := Addr → Option class_desc

/-- C function `has_iface`: dereference the class pointer of the object, then scan its
binding array for the queried interface descriptor address. -/
def has_iface (CE : ClassEnv) (self : object) (interface : Addr) : Option impl :=
  match CE self.type with
  | none => none
  | some c => scan_ifaces c.interfaces interface 0 c.interface_count

/-- C function `iface_isnull`: a binding is null exactly when its vtable pointer is NULL;
the descriptor field is never consulted. -/
def iface_isnull (interface : impl) : Bool := interface.vtable == 0

/-- The static table `number_printable_vtable = { .toString = &number_print }`. -/
def number_printable_vtable : printable_vtable := { toString := number_print_fn }

/-- The static binding `number_printable_impl`. -/
def number_printable_impl : impl :=
  { type := printable_iface_addr, vtable := number_printable_vtable_addr }

/-- Contents of the static array `number_interfaces`: one entry binding the
printable descriptor to the static number vtable. -/
def number_interfaces : List impl :=
  [{ type := printable_iface_addr, vtable := number_printable_vtable_addr }]

/-- The static descriptor `number_class`.  The interface count is the literal
translation of `sizeof(number_interfaces) / sizeof(void *)` from the source:
the array byte size is (number of entries) * sizeof(struct impl). -/
def number_class : class_desc :=
  { instance_size := 4
    interface_count := number_interfaces.length * sizeof_impl / sizeof_void_ptr
    interfaces := number_interfaces }

/-- Class memory of this program: the single class descriptor number_class at
its static address. -/
def program_classes : ClassEnv :=
  fun a => if a = number_class_addr then some number_class else none

/-- The static descriptor `printable_iface`, whose vtable_size is
sizeof(printable_vtable), one function pointer. -/
def printable_iface : iface := { vtable_size := 8 }

/-- C function `number_print`: asserts that the receiver class pointer is &number_class,
then, when the buffer length exceeds 1, stores representation + the digit-zero
byte into buf[0].  Dereferencing an instance pointer with no live allocation
(in particular NULL, after destroy) is undefined behaviour.  The int-to-char
store wraps modulo 256. -/
def number_print (mem : NumMem) (self : object) (length : Nat) (buf : List Nat) :
    Option (List Nat) :=
  if self.type = number_class_addr then
    if length > 1 then
      match mem.lookup self.instance_ with
      | none => none
      | some rep => some (buf.set 0 ((rep + 48).emod 256).toNat)
    else some buf
  else none

/-- Indirect call through a toString function pointer.  The program contains
exactly one toString entry point, number_print; calling through any other
value is a jump through an invalid function pointer. -/
def call_toString (mem : NumMem) (fn : Addr) (self : object) (length : Nat)
    (buf : List Nat) : Option (List Nat) :=
  if fn = number_print_fn then number_print mem self length buf else none

/-- The precondition check of `println`, translated literally: the source
writes assert(contract.type = &printable_iface), a single equals sign, so the
checked expression assigns &printable_iface into the local copy of the
contract and the assert tests the assigned value, which is a non-null address.
Returns the truth of the assert together with the mutated local contract. -/
def println_assert (contract : impl) : Bool × impl :=
  let c : impl := { contract with type := printable_iface_addr }
  (c.type != 0, c)

/-- C function `println`: run the (broken) assert, cast the vtable pointer to a printable
vtable and read it, build the stack buffer with a zero byte and a newline
byte, dispatch toString with length 2, then write both bytes to file
descriptor 1.  The result is the pair of bytes written. -/
def println (H : Heap) (self : object) (contract : impl) : Option (List Nat) :=
  let p := println_assert contract
  if p.1 then
    match H.vtables.lookup p.2.vtable with
    | none => none
    | some v =>
      let buf : List Nat := [0, 10]
      match call_toString H.numbers v.toString self 2 buf with
      | none => none
      | some buf2 => some buf2
  else none

/-- C function `new_number`: malloc a number payload, store the value, return an object
handle whose class pointer is &number_class. -/
def new_number (H : Heap) (value : Int) : Heap × object :=
  ({ H with
      next := H.next + 1
      numbers := (H.next, value) :: H.numbers },
   { type := number_class_addr, instance_ := H.next })

/-- C function `destroy_number`: free(self->instance) then null the instance pointer.
free of NULL is a defined no-op; free of a live payload releases it; free of
any other pointer is undefined behaviour. -/
def destroy_number (H : Heap) (self : object) : Option (Heap × object) :=
  if self.instance_ = 0 then
    some (H, { self with instance_ := 0 })
  else if (H.numbers.lookup self.instance_).isSome then
    some ({ H with numbers := remove_key H.numbers self.instance_ },
      { self with instance_ := 0 })
  else none

/-- C function `new_runtime_number_print_iface`: assert the receiver is a number, malloc
a fresh vtable, point its toString at number_print, and return a binding of
the printable descriptor to that heap table. -/
def new_runtime_number_print_iface (H : Heap) (self : object) :
    Option (Heap × impl) :=
  if self.type = number_class_addr then
    some ({ H with
              next := H.next + 1
              vtables := (H.next, { toString := number_print_fn }) :: H.vtables
              heap_vtables := H.next :: H.heap_vtables },
      { type := printable_iface_addr, vtable := H.next })
  else none

/-- C function `destroy_number_print_iface`: free(generated->vtable) then null the vtable
pointer.  free of NULL is a defined no-op; free of a live heap vtable releases
it; free of any other pointer (static, stack, or already freed) is undefined
behaviour. -/
def destroy_number_print_iface (H : Heap) (generated : impl) :
    Option (Heap × impl) :=
  if generated.vtable = 0 then
    some (H, { generated with vtable := 0 })
  else if H.heap_vtables.contains generated.vtable then
    some ({ H with
              vtables := remove_key H.vtables generated.vtable
              heap_vtables := H.heap_vtables.erase generated.vtable },
      { generated with vtable := 0 })
  else none

/-- The memory state at program start: no heap allocations yet, the static
number vtable readable at its address, fresh addresses starting at 100. -/
def static_heap : Heap :=
  { next := 100
    numbers := []
    vtables := [(number_printable_vtable_addr, number_printable_vtable)]
    heap_vtables := [] }

/-- Stack allocation of a vtable (the duck-typed table my_num_vtable in main):
readable memory, but not a heap block, so never eligible for free. -/
def add_stack_vtable (H : Heap) (v : printable_vtable) : Heap × Addr :=
  ({ H with
      next := H.next + 1
      vtables := (H.next, v) :: H.vtables }, H.next)

/-- The message-passing branch of main, and the concrete scenario of the
specification: construct a number with the given value, resolve the printable
capability with has_iface, test the result with iface_isnull, and print
through the resolved binding. -/
def print_via_resolution (value : Int) : Option (List Nat) :=
  let r := new_number static_heap value
  match has_iface program_classes r.2 printable_iface_addr with
  | none => none
  | some contract =>
    if iface_isnull contract then none else println r.1 r.2 contract

/-- The three dispatch strategies exercised by main, in the order main runs
them on one number object: println through the runtime-generated binding,
release of that binding, println through the caller-assembled duck-typed
binding (its stack vtable copies the toString slot of the static number
vtable), and println through the static binding number_printable_impl.
Returns the three outputs. -/
def main_three_outputs (value : Int) :
    Option (List Nat × List Nat × List Nat) :=
  let r := new_number static_heap value
  match new_runtime_number_print_iface r.1 r.2 with
  | none => none
  | some (H2, generated) =>
    match println H2 r.2 generated with
    | none => none
    | some out1 =>
      match destroy_number_print_iface H2 generated with
      | none => none
      | some (H3, _) =>
        match H3.vtables.lookup number_printable_vtable_addr with
        | none => none
        | some nv =>
          let s := add_stack_vtable H3 { toString := nv.toString }
          let my_printable_implementation : impl :=
            { type := printable_iface_addr, vtable := s.2 }
          match println s.1 r.2 my_printable_implementation with
          | none => none
          | some out2 =>
            match println s.1 r.2 number_printable_impl with
            | none => none
            | some out3 => some (out1, out2, out3)

/-- C1: the claim that has_iface returns a non-null binding iff the class of
the object declares the queried interface fails on the shipped code.  The
interface at address 50 is not declared by number_class (its binding array
holds only the printable binding), yet resolution of it does not return the
null binding sentinel: because number_class.interface_count is 2 while the
array has one entry, the scan reads past the end of the array and the
execution is undefined (modelled as none).  For the declared printable
interface, resolution still returns the correct binding, matching at index 0
before the overrun. -/
theorem c1_resolution_iff_fails_on_number_class :
    (number_interfaces.all fun e => e.type != 50) = true ∧
    has_iface program_classes { type := number_class_addr, instance_ := 100 } 50 ≠
      some null_impl ∧
    has_iface program_classes { type := number_class_addr, instance_ := 100 } 50 = none ∧
    has_iface program_classes { type := number_class_addr, instance_ := 100 }
      printable_iface_addr = some number_printable_impl := by decide

/-- C2: the precondition check at the start of println is a tautology.  For
every binding passed as the contract argument, whatever its interface field,
the checked expression assigns the address of printable_iface into the local
copy of the contract and the assert tests that assigned non-null address, so
the assert succeeds. -/
theorem c2_println_check_is_tautology (contract : impl) :
    (println_assert contract).1 = true ∧
    (println_assert contract).2 = { contract with type := printable_iface_addr } :=
  ⟨rfl, rfl⟩

/-- C3: the claim that number_class declares interface_count equal to the
number of entries of number_interfaces, keeping the scan of has_iface in
bounds, fails on the shipped code.  The initializer divides the array byte
size by sizeof(void *) instead of sizeof(impl), giving count 2 for a
one-entry array, and the scan for any undeclared interface therefore reads
index 1, past the end of the array. -/
theorem c3_interface_count_overruns_array :
    number_class.interface_count = 2 ∧
    number_class.interfaces.length = 1 ∧
    number_class.interfaces[1]? = none ∧
    scan_ifaces number_class.interfaces 50 0 number_class.interface_count = none := by
  decide

/-- C4: the concrete scenario.  A number constructed with value 3, its
printable capability resolved by has_iface and invoked through println,
writes exactly the two bytes 51 (the digit 3) then 10 (newline) to the
output stream; constructed with value 0 it writes exactly 48 (the digit 0)
then 10. -/
theorem c4_prints_digit_then_newline :
    print_via_resolution 3 = some [51, 10] ∧
    print_via_resolution 0 = some [48, 10] := by decide

/-- Any binding the scan loop of has_iface returns is either the null binding
sentinel or an array entry whose descriptor pointer equals the queried one. -/
theorem scan_ifaces_type_of_returned (arr : List impl) (q : Addr) :
    ∀ (fuel i : Nat) (b : impl), scan_ifaces arr q i fuel = some b →
      b = null_impl ∨ b.type = q := by
  intro fuel
  induction fuel with
  | zero =>
    intro i b h
    simp only [scan_ifaces, Option.some.injEq] at h
    exact Or.inl h.symm
  | succ n ih =>
    intro i b h
    simp only [scan_ifaces] at h
    split at h
    · cases h
    · split at h
      · rename_i he
        cases h
        exact Or.inr he
      · exact ih (i + 1) b h

/-- C5: matching in has_iface is by descriptor address identity, never by
structural equality of the size field.  For any two distinct descriptor
addresses holding descriptors of identical vtable_size, a query for the
second never returns a binding declared for the first: every binding the
scan returns carries the queried address itself (or is the null sentinel,
whose descriptor field is NULL). -/
theorem c5_identity_not_shape (IE : Addr → Option iface) (CE : ClassEnv)
    (self : object) (i1 i2 : Addr) (d1 d2 : iface) (b : impl)
    (h1 : IE i1 = some d1) (h2 : IE i2 = some d2)
    (hsize : d1.vtable_size = d2.vtable_size)
    (hne : i1 ≠ i2) (hvalid : i1 ≠ 0)
    (hres : has_iface CE self i2 = some b) :
    b.type ≠ i1 := by
  unfold has_iface at hres
  cases hCE : CE self.type with
  | none => rw [hCE] at hres; cases hres
  | some c =>
    rw [hCE] at hres
    rcases scan_ifaces_type_of_returned c.interfaces i2 c.interface_count 0 b hres
      with hb | hb
    · rw [hb]
      exact fun h => hvalid h.symm
    · rw [hb]
      exact fun h => hne h.symm

/-- Witness for C5: the descriptors at addresses 1 (printable_iface) and 50
both have vtable_size 8, the addresses differ, resolution of the printable
descriptor on a number object returns the static printable binding, and that
binding is not a binding for descriptor 50. -/
theorem c5_identity_not_shape_witness :
    (fun a => if a = printable_iface_addr then some printable_iface
              else if a = 50 then some printable_iface
              else none : Addr → Option iface) 50 = some printable_iface ∧
    printable_iface.vtable_size = printable_iface.vtable_size ∧
    (50 : Addr) ≠ printable_iface_addr ∧ (50 : Addr) ≠ 0 ∧
    has_iface program_classes { type := number_class_addr, instance_ := 100 }
      printable_iface_addr = some number_printable_impl ∧
    number_printable_impl.type ≠ 50 :=
  ⟨by decide, rfl, by decide, by decide, by decide,
   c5_identity_not_shape
     (fun a => if a = printable_iface_addr then some printable_iface
               else if a = 50 then some printable_iface else none)
     program_classes { type := number_class_addr, instance_ := 100 }
     50 printable_iface_addr printable_iface printable_iface
     number_printable_impl (by decide) (by decide) rfl
     (by decide) (by decide) (by decide)⟩

/-- C6: dispatch determinism.  For a number object of any value, the sequence
main runs — println through the runtime-generated binding, then through the
caller-assembled duck-typed binding, then through the static binding
number_printable_impl — produces three identical outputs: each binding routes
the call to the single toString entry point number_print with the same
receiver, so each prints the byte of the stored value plus the digit-zero
byte, followed by a newline. -/
theorem c6_dispatch_determinism (value : Int) :
    main_three_outputs value =
      some ([((value + 48).emod 256).toNat, 10],
            [((value + 48).emod 256).toNat, 10],
            [((value + 48).emod 256).toNat, 10]) := rfl

/-- The state after allocating one number and one runtime-generated printable
binding from the start state and then releasing that binding once. -/
def first_release : Option (Heap × impl) :=
  match new_runtime_number_print_iface (new_number static_heap 3).1
      (new_number static_heap 3).2 with
  | none => none
  | some (H2, g) => destroy_number_print_iface H2 g

/-- The state after releasing the same runtime-generated binding a second
time. -/
def second_release : Option (Heap × impl) :=
  match first_release with
  | none => none
  | some (H3, g1) => destroy_number_print_iface H3 g1

/-- C7 counterexample: the claim that a second release of the same
runtime-generated binding is detected and reported as an error fails on the
shipped code.  The second call to destroy_number_print_iface completes
normally (it is not the undefined/error outcome none) and leaves the state
exactly as the first release left it: a silent acceptance, with no error
report of any kind. -/
theorem c7_second_release_silently_accepted :
    second_release = first_release ∧ second_release ≠ none := by decide

/-- C7 as amended: releasing a live runtime-generated binding frees its table
exactly once — the table leaves the set of live heap blocks and the binding
vtable pointer is nulled — and a second release of the resulting binding is a
silent no-op (free of a null pointer): it returns with the state and the
binding unchanged, reporting no error. -/
theorem c7_release_frees_once_second_release_noop (H : Heap) (g : impl)
    (hnz : g.vtable ≠ 0)
    (hlive : H.heap_vtables.contains g.vtable = true) :
    destroy_number_print_iface H g =
      some ({ H with
                vtables := remove_key H.vtables g.vtable
                heap_vtables := H.heap_vtables.erase g.vtable },
            { g with vtable := 0 }) ∧
    destroy_number_print_iface
        { H with
            vtables := remove_key H.vtables g.vtable
            heap_vtables := H.heap_vtables.erase g.vtable }
        { g with vtable := 0 } =
      some ({ H with
                vtables := remove_key H.vtables g.vtable
                heap_vtables := H.heap_vtables.erase g.vtable },
            { g with vtable := 0 }) := by
  constructor
  · unfold destroy_number_print_iface
    simp [hnz, hlive]
    simpa using hlive
  · rfl

/-- Witness for C7 as amended: the runtime-generated binding allocated by
main (vtable at address 101) is live in the heap after its creation, and the
release theorem applies to it. -/
theorem c7_release_witness :
    ({ static_heap with
        next := 102
        numbers := [(100, (3 : Int))]
        vtables := (101, number_printable_vtable) :: static_heap.vtables
        heap_vtables := [101] } : Heap).heap_vtables.contains 101 = true ∧
    destroy_number_print_iface
        { static_heap with
            next := 102
            numbers := [(100, (3 : Int))]
            vtables := (101, number_printable_vtable) :: static_heap.vtables
            heap_vtables := [101] }
        { type := printable_iface_addr, vtable := 101 } =
      some ({ { static_heap with
                  next := 102
                  numbers := [(100, (3 : Int))]
                  vtables := (101, number_printable_vtable) :: static_heap.vtables
                  heap_vtables := [101] } with
                vtables := remove_key
                  ((101, number_printable_vtable) :: static_heap.vtables) 101
                heap_vtables := ([101] : List Addr).erase 101 },
            { type := printable_iface_addr, vtable := 0 }) :=
  ⟨by decide,
   (c7_release_frees_once_second_release_noop
     { static_heap with
         next := 102
         numbers := [(100, (3 : Int))]
         vtables := (101, number_printable_vtable) :: static_heap.vtables
         heap_vtables := [101] }
     { type := printable_iface_addr, vtable := 101 }
     (by decide) (by decide)).1⟩

/-- C8 counterexample: the claim that after destroy_number every further
invoke or resolve on the handle is rejected fails on the shipped code.
Destroying the number allocated from the start state nulls its instance
pointer, yet has_iface on the destroyed handle still runs to completion and
returns the non-null printable binding: resolution is silently executed, not
rejected, because it consults only the class pointer, never the instance. -/
theorem c8_resolve_after_destroy_executes :
    destroy_number (new_number static_heap 3).1 (new_number static_heap 3).2 =
      some ({ static_heap with next := 101 },
            { type := number_class_addr, instance_ := 0 }) ∧
    has_iface program_classes { type := number_class_addr, instance_ := 0 }
      printable_iface_addr = some number_printable_impl ∧
    iface_isnull number_printable_impl = false := by decide

/-- C8 as amended: after destroy_number nulls the instance pointer, invoking
the print operation through println with any contract has no defined result —
number_print dereferences the null instance (undefined behaviour, a fault
rather than a clean rejection) — while has_iface still executes normally and
returns the printable binding. -/
theorem c8_invoke_faults_resolve_executes_after_destroy
    (H : Heap) (num : object) (contract : impl)
    (hdestroyed : num.instance_ = 0)
    (hty : num.type = number_class_addr)
    (hnull : H.numbers.lookup 0 = none) :
    println H num contract = none ∧
    has_iface program_classes num printable_iface_addr = some number_printable_impl := by
  constructor
  · unfold println println_assert
    cases hv : H.vtables.lookup contract.vtable with
    | none => simp [hv]
    | some v =>
      by_cases hf : v.toString = number_print_fn
      · simp [hv, call_toString, hf, number_print, hty, hdestroyed, hnull]
      · simp [hv, call_toString, hf]
  · obtain ⟨t, i⟩ := num
    simp only at hty hdestroyed
    subst hty
    rfl

/-- Witness for C8 as amended: the destroyed handle left by the
counterexample run, invoked through the static printable binding. -/
theorem c8_after_destroy_witness :
    ({ type := number_class_addr, instance_ := 0 } : object).instance_ = 0 ∧
    ({ static_heap with next := 101 } : Heap).numbers.lookup 0 = none ∧
    println { static_heap with next := 101 }
      { type := number_class_addr, instance_ := 0 } number_printable_impl = none :=
  ⟨rfl, by decide,
   (c8_invoke_faults_resolve_executes_after_destroy
     { static_heap with next := 101 }
     { type := number_class_addr, instance_ := 0 }
     number_printable_impl rfl rfl (by decide)).1⟩

/-- C9: destroying a freshly constructed number releases its payload (the
heap holds exactly the payloads it held before construction) and nulls the
instance pointer of the handle; calling destroy_number a second time on the
already-destroyed handle is a no-op — free of the null instance pointer is
defined and does nothing — returning state and handle unchanged, with no
corruption.  The no-op is detectable: the instance pointer of the handle is
already null. -/
theorem c9_double_destroy_detectable_noop (H : Heap) (v : Int)
    (hnz : H.next ≠ 0) :
    destroy_number (new_number H v).1 (new_number H v).2 =
      some ({ H with next := H.next + 1 },
            { type := number_class_addr, instance_ := 0 }) ∧
    destroy_number { H with next := H.next + 1 }
        { type := number_class_addr, instance_ := 0 } =
      some ({ H with next := H.next + 1 },
            { type := number_class_addr, instance_ := 0 }) := by
  constructor
  · unfold new_number destroy_number
    simp [hnz, remove_key]
  · rfl

/-- Witness for C9: the lifecycle run from the start state with value 5. -/
theorem c9_double_destroy_witness :
    static_heap.next ≠ 0 ∧
    destroy_number (new_number static_heap 5).1 (new_number static_heap 5).2 =
      some ({ static_heap with next := static_heap.next + 1 },
            { type := number_class_addr, instance_ := 0 }) :=
  ⟨by decide, (c9_double_destroy_detectable_noop static_heap 5 (by decide)).1⟩

/-- C10: iface_isnull classifies a binding as null exactly when its vtable
field is NULL, and it never consults the interface field: replacing the
interface field leaves the classification unchanged.  Consequently, whenever
destroy_number_print_iface completes on a binding, the binding it leaves
behind keeps its interface field but is classified as absent. -/
theorem c10_isnull_tests_vtable_only (b : impl) (t : Addr) (H H2 : Heap)
    (g g2 : impl)
    (hrel : destroy_number_print_iface H g = some (H2, g2)) :
    (iface_isnull b = true ↔ b.vtable = 0) ∧
    iface_isnull { type := t, vtable := b.vtable } = iface_isnull b ∧
    iface_isnull g2 = true ∧ g2.type = g.type := by
  refine ⟨by simp [iface_isnull], rfl, ?_, ?_⟩ <;>
  · unfold destroy_number_print_iface at hrel
    split at hrel
    · cases hrel; rfl
    · split at hrel
      · cases hrel; rfl
      · cases hrel

/-- Witness for C10: releasing the live runtime-generated binding at vtable
address 101 leaves a binding whose interface field still points at the
printable descriptor but which iface_isnull classifies as absent. -/
theorem c10_isnull_witness :
    destroy_number_print_iface
        { static_heap with
            vtables := (101, number_printable_vtable) :: static_heap.vtables
            heap_vtables := [101] }
        { type := printable_iface_addr, vtable := 101 } =
      some ({ static_heap with
                vtables := remove_key
                  ((101, number_printable_vtable) :: static_heap.vtables) 101
                heap_vtables := ([101] : List Addr).erase 101 },
            { type := printable_iface_addr, vtable := 0 }) ∧
    ((iface_isnull { type := printable_iface_addr, vtable := 55 } = true ↔
        (55 : Addr) = 0) ∧
     iface_isnull { type := 7, vtable :=
         ({ type := printable_iface_addr, vtable := 55 } : impl).vtable } =
       iface_isnull { type := printable_iface_addr, vtable := 55 } ∧
     iface_isnull { type := printable_iface_addr, vtable := 0 } = true ∧
     ({ type := printable_iface_addr, vtable := 0 } : impl).type =
       ({ type := printable_iface_addr, vtable := 101 } : impl).type) :=
  ⟨by decide,
   c10_isnull_tests_vtable_only { type := printable_iface_addr, vtable := 55 } 7
     { static_heap with
         vtables := (101, number_printable_vtable) :: static_heap.vtables
         heap_vtables := [101] }
     { static_heap with
         vtables := remove_key
           ((101, number_printable_vtable) :: static_heap.vtables) 101
         heap_vtables := ([101] : List Addr).erase 101 }
     { type := printable_iface_addr, vtable := 101 }
     { type := printable_iface_addr, vtable := 0 }
     (by decide)⟩

end InterfaceDemo
